import Mathlib

/-!
Verification of the Voice-Training-Script-Generator utilities.

This file gives a shallow embedding of the two Python scripts
`calculate_wpm.py` (the WPM analyzer) and `generate_text.py` (the script
generator).  Numeric values that Python represents as `float` are modelled
as exact rationals (`ℚ`); Python `int` is modelled as `ℤ`; fallible steps
(missing config, division by zero) are modelled with explicit error
results.  Remote API calls (transcription, text generation) are modelled
as oracles supplied as function arguments, and the file system is modelled
as an explicit state record threaded through the persistence functions.
-/

/-- Python `int(x)` on a real value truncates toward zero:
floor for non-negative arguments, ceiling for negative ones. -/
def pyInt (q : ℚ) : ℤ := if 0 ≤ q then ⌊q⌋ else ⌈q⌉

/-- Round a rational to the nearest integer, ties to even, mirroring the
tie-breaking rule of Python `round` (exact decimal ties modelled exactly). -/
def roundHalfEven (q : ℚ) : ℤ :=
  let f := ⌊q⌋
  let r := q - (f : ℚ)
  if r < 1 / 2 then f
  else if 1 / 2 < r then f + 1
  else if f % 2 = 0 then f else f + 1

/-- Python `round(q, ndigits)`: round to `ndigits` decimal places. -/
def pyRound (q : ℚ) (ndigits : ℕ) : ℚ :=
  (roundHalfEven (q * (10 : ℚ) ^ ndigits) : ℚ) / (10 : ℚ) ^ ndigits

/-- Helper for `countWords`: count maximal runs of non-whitespace
characters; the boolean records whether we are inside such a run. -/
def countWordsAux : List Char → Bool → ℕ
  | [], _ => 0
  | c :: cs, inWord =>
    if c.isWhitespace then countWordsAux cs false
    else (if inWord then 0 else 1) + countWordsAux cs true

/-- `len(text.split())` in Python: the number of whitespace-separated
words of a string (`count_words` in `calculate_wpm.py`, and the word
counting done inline in `generate_text.py`). -/
def countWords (s : String) : ℕ := countWordsAux s.data false

/-- Python `str.strip()`: drop whitespace from both ends of a string. -/
def pyStrip (s : String) : String :=
  String.mk (((s.data.dropWhile Char.isWhitespace).reverse.dropWhile
    Char.isWhitespace).reverse)

/-- `calculate_wpm` from `calculate_wpm.py`: words per minute, defined as
zero when the duration is zero. -/
def calculate_wpm (word_count : ℕ) (duration_seconds : ℚ) : ℚ :=
  let duration_minutes := duration_seconds / 60
  if duration_minutes = 0 then 0 else (word_count : ℚ) / duration_minutes

/-- One audio file discovered by the analyzer: its name, the duration
reported by the audio library, and the transcript the remote
transcription API would return for it. -/
structure AudioFile where
  name : String
  duration : ℚ
  transcript : String
deriving DecidableEq

/-- One entry of the `files` array of the analyzer report
(`calculate_wpm.py`, lines 130-136). -/
structure FileRecord where
  file : String
  duration_seconds : ℚ
  word_count : ℕ
  wpm : ℚ
  transcript : String
deriving DecidableEq

/-- The `summary` object of the analyzer report. -/
structure AnalysisSummary where
  files_analyzed : ℕ
  total_words : ℕ
  total_duration_seconds : ℚ
  average_wpm : ℚ
deriving DecidableEq

/-- The whole analyzer report (`output` dict in `calculate_wpm.py`). -/
structure Report where
  analysis_date : String
  summary : AnalysisSummary
  files : List FileRecord
deriving DecidableEq

/-- The per-file record built inside the processing loop of
`calculate_wpm.py` `main` (lines 114-136). -/
def buildFileRecord (a : AudioFile) : FileRecord :=
  let word_count := countWords a.transcript
  ⟨a.name, pyRound a.duration 2, word_count,
    pyRound (calculate_wpm word_count a.duration) 1, a.transcript⟩

/-- The aggregation and report construction of `calculate_wpm.py` `main`
(lines 138-153): average WPM is the plain mean of the per-file `wpm`
fields, totals are plain sums. -/
def buildReport (now : String) (files : List AudioFile) : Report :=
  let results := files.map buildFileRecord
  let average_wpm := (results.map FileRecord.wpm).sum / (results.length : ℚ)
  let total_words := (results.map FileRecord.word_count).sum
  let total_duration := (results.map FileRecord.duration_seconds).sum
  ⟨now,
    ⟨results.length, total_words, pyRound total_duration 2,
      pyRound average_wpm 1⟩,
    results⟩

/-- One generated chunk as accumulated by `generate_text.py` `main`
(lines 307-311). -/
structure TextData where
  text : String
  target_words : ℤ
  actual_words : ℕ
deriving DecidableEq

/-- One entry of the `chunks` array of `metadata.json`
(`generate_text.py`, lines 177-183). -/
structure ChunkMeta where
  file : String
  target_word_count : ℤ
  actual_word_count : ℕ
  estimated_duration_minutes : ℚ
deriving DecidableEq

/-- The `metadata` dict written by `save_output`
(`generate_text.py`, lines 171-191). -/
structure Metadata where
  generated_at : String
  style : String
  target_duration_minutes : ℚ
  wpm_used : ℤ
  chunks : List ChunkMeta
  total_words : ℕ
  estimated_total_duration_minutes : ℚ
deriving DecidableEq

/-- Contents of a file on disk: a plain text file, the serialized
generator metadata, or the serialized analyzer report. -/
inductive Entry where
  | text (s : String)
  | meta (m : Metadata)
  | report (r : Report)
deriving DecidableEq

/-- The file system as seen by the two scripts: a set of directories and
a write log of (path, contents) pairs; the most recent write of a path
(nearest the head) is the current contents of that path. -/
structure FS where
  dirs : List String
  files : List (String × Entry)
deriving DecidableEq

/-- `Path.mkdir(parents=True, exist_ok=True)`: never fails, records the
directory. -/
def FS.mkdirP (fs : FS) (p : String) : FS := ⟨p :: fs.dirs, fs.files⟩

/-- Whether a directory exists. -/
def FS.hasDir (fs : FS) (p : String) : Bool := fs.dirs.contains p

/-- `open(path, "w")` followed by a write: the new contents shadow any
earlier write of the same path. -/
def FS.write (fs : FS) (p : String) (e : Entry) : FS :=
  ⟨fs.dirs, (p, e) :: fs.files⟩

/-- Current contents of a path: the most recent write wins. -/
def lookupFile (fs : FS) (p : String) : Option Entry :=
  (fs.files.find? (fun q => q.1 == p)).map Prod.snd

/-- Zero-padded rendering of a chunk index, Python `f"{i:02d}"` for
`i ≥ 0`. -/
def pad2 (i : ℕ) : String := if i < 10 then "0" ++ toString i else toString i

/-- The per-chunk file name `f"chunk_{i:02d}.txt"`. -/
def chunkFileName (i : ℕ) : String := "chunk_" ++ pad2 i ++ ".txt"

/-- The file name chosen in the write loop of `save_output`
(lines 161-164): `script.txt` for a single chunk, numbered chunk files
otherwise.  `n` is the total number of chunks, `i` the 1-based index. -/
def outFileName (n i : ℕ) : String :=
  if n = 1 then "script.txt" else chunkFileName i

/-- The session directory path `output_dir / f"session_{timestamp}"`. -/
def sessionPath (output_dir timestamp : String) : String :=
  output_dir ++ "/session_" ++ timestamp

/-- The chunk-file write loop of `save_output` (lines 160-168):
`for i, text_data in enumerate(texts, 1)`, writing each chunk under the
session directory. -/
def writeChunks (sd : String) (n : ℕ) : FS → ℕ → List TextData → FS
  | fs, _, [] => fs
  | fs, i, t :: ts =>
    writeChunks sd n (fs.write (sd ++ "/" ++ outFileName n i) (.text t.text))
      (i + 1) ts

/-- The `chunks` list comprehension of the metadata dict
(lines 176-184); word counts are recomputed from the text, and the
estimated duration divides by `wpm`. -/
def chunkMetas (wpm : ℤ) (n : ℕ) : ℕ → List TextData → List ChunkMeta
  | _, [] => []
  | i, t :: ts =>
    ⟨if n > 1 then chunkFileName i else "script.txt",
      t.target_words, countWords t.text,
      pyRound ((countWords t.text : ℚ) / (wpm : ℚ)) 2⟩ ::
      chunkMetas wpm n (i + 1) ts

/-- The metadata record assembled by `save_output` (lines 171-191). -/
def buildMetadata (generated_at : String) (texts : List TextData)
    (style : String) (total_duration : ℚ) (wpm : ℤ) : Metadata :=
  let total_words := (texts.map (fun t => countWords t.text)).sum
  ⟨generated_at, style, total_duration, wpm,
    chunkMetas wpm texts.length 1 texts,
    total_words,
    pyRound ((total_words : ℚ) / (wpm : ℚ)) 2⟩

/-- Failure of `save_output`: building the metadata divides by `wpm`
(lines 181 and 188), which raises `ZeroDivisionError` when `wpm = 0`. -/
inductive SaveErr where
  | zeroDivision
deriving DecidableEq

/-- `save_output` from `generate_text.py` (lines 146-197): create the
timestamped session directory with `exist_ok=True`, write each chunk
file, then write `metadata.json`; returns the session directory path.
The returned file system reflects every write performed before a
failure. -/
def save_output (fs : FS) (output_dir timestamp : String)
    (texts : List TextData) (style : String) (total_duration : ℚ)
    (wpm : ℤ) (generated_at : String) : FS × Except SaveErr String :=
  let sd := sessionPath output_dir timestamp
  let fs1 := fs.mkdirP sd
  let fs2 := writeChunks sd texts.length fs1 1 texts
  if wpm = 0 then (fs2, .error .zeroDivision)
  else
    (fs2.write (sd ++ "/metadata.json")
      (.meta (buildMetadata generated_at texts style total_duration wpm)),
     .ok sd)

/-- `get_style_prompt` from `generate_text.py` (lines 50-89): a fixed
table of prompt fragments; `dict.get` with the `"conversational"`
fragment as the default for unknown keys. -/
def get_style_prompt (style : String) : String :=
  if style = "conversational" then
    "Write in a natural, conversational tone as if speaking to a friend. Include occasional filler words, natural pauses, and casual language. Topics can range widely - anecdotes, observations, musings."
  else if style = "narrative" then
    "Write engaging narrative prose suitable for an audiobook. Include descriptive passages, varied sentence structures, and compelling storytelling. Can be fiction or creative non-fiction."
  else if style = "technical" then
    "Write clear technical explanations or tutorials. Include precise terminology but maintain readability for narration. Topics can include technology, science, programming, or engineering."
  else if style = "news_anchor" then
    "Write in a professional news broadcast style. Clear, authoritative tone with good pacing for broadcast delivery. Include varied news topics - current events, features, human interest."
  else if style = "storytelling" then
    "Write immersive short stories or story excerpts. Include dialogue, scene descriptions, and emotional moments. Vary between action, reflection, and character development."
  else if style = "educational" then
    "Write informative educational content suitable for a documentary. Include interesting facts, clear explanations, and engaging delivery. Topics can span history, nature, culture, science."
  else if style = "podcast" then
    "Write in an engaging podcast monologue style. Include rhetorical questions, audience engagement phrases, and natural transitions between topics."
  else
    "Write in a natural, conversational tone as if speaking to a friend. Include occasional filler words, natural pauses, and casual language. Topics can range widely - anecdotes, observations, musings."

/-- The recognized style keys of the `style_prompts` dict. -/
def knownStyles : List String :=
  ["conversational", "narrative", "technical", "news_anchor",
   "storytelling", "educational", "podcast"]

/-- `calculate_word_count` from `generate_text.py` (lines 45-47):
`int(duration_minutes * wpm)`. -/
def calculate_word_count (duration_minutes : ℚ) (wpm : ℤ) : ℤ :=
  pyInt (duration_minutes * (wpm : ℚ))

/-- The prompt assembled by `generate_text_chunk`
(`generate_text.py`, lines 100-136): style fragment, positional chunk
context, optional topic focus, and the fixed formatting constraints. -/
def buildPrompt (word_count : ℤ) (style : String) (chunk_number : ℕ)
    (total_chunks : ℕ) (topic_hint : String) : String :=
  let style_prompt := get_style_prompt style
  let chunk_context :=
    if total_chunks > 1 then
      "This is part " ++ toString chunk_number ++ " of " ++
        toString total_chunks ++ ". " ++
        (if chunk_number = 1 then "Start fresh with an engaging opening. "
         else if chunk_number = total_chunks then
           "This is the final part - provide a satisfying conclusion. "
         else "Continue naturally from a previous section. ")
    else ""
  let topic_context :=
    if topic_hint = "" then ""
    else "Focus on this topic area: " ++ topic_hint ++ ". "
  "Generate text for voice recording/narration.\n\nTarget word count: approximately "
    ++ toString word_count
    ++ " words (very important - aim for this count)\n\nStyle requirements:\n"
    ++ style_prompt ++ "\n\n" ++ chunk_context ++ topic_context
    ++ "\n\nRequirements:\n- Generate ONLY the text to be read aloud\n- No headers, titles, or metadata\n- No stage directions or notes\n- Natural flow suitable for continuous narration\n- Varied sentence lengths for natural rhythm\n- Avoid tongue-twisters or overly complex words\n- Include natural breathing points (commas, periods)\n\nGenerate the text now:"

/-- `generate_text_chunk` (lines 92-143): build the prompt, consult the
remote model (abstracted as an oracle from prompts to responses), and
return the stripped response. -/
def generate_text_chunk (oracle : String → String) (word_count : ℤ)
    (style : String) (chunk_number total_chunks : ℕ)
    (topic_hint : String) : String :=
  pyStrip (oracle (buildPrompt word_count style chunk_number total_chunks
    topic_hint))

/-- The generation loop of `generate_text.py` `main` (lines 290-311):
`for i in range(1, num_chunks + 1)`, with a constant per-chunk target
word count. -/
def generateTexts (oracle : String → String) (numChunks : ℕ)
    (chunkDuration : ℚ) (wpm : ℤ) (style topic : String) : List TextData :=
  (List.range numChunks).map (fun k =>
    let target := calculate_word_count chunkDuration wpm
    let text := generate_text_chunk oracle target style (k + 1) numChunks
      topic
    ⟨text, target, countWords text⟩)

/-- The CLI arguments of the generator (lines 201-241).  `none` models
an omitted optional argument. -/
structure Args where
  duration : ℚ
  style : Option String
  chunks : ℤ
  chunk_duration : Option ℚ
  topic : String
  wpm : Option ℤ
deriving DecidableEq

/-- The recognized keys of `config.json`; `none` models a missing key,
for which `config.get` falls back to the default. -/
structure Config where
  wpm : Option ℤ
  default_style : Option String
  available_styles : Option (List String)
  output_directory : Option String
deriving DecidableEq

/-- Python `a or b` for an optional string `a`: the empty string is
falsy. -/
def pyOrStr (a : Option String) (b : String) : String :=
  match a with
  | some s => if s = "" then b else s
  | none => b

/-- Python `a or b` for an optional int `a`: zero is falsy. -/
def pyOrInt (a : Option ℤ) (b : ℤ) : ℤ :=
  match a with
  | some w => if w = 0 then b else w
  | none => b

/-- The per-chunk duration of `main` (line 261):
`chunk_duration = args.duration / num_chunks`, an equal division with no
redistribution of remainders. -/
def chunkDurationOf (duration : ℚ) (numChunks : ℤ) : ℚ :=
  duration / (numChunks : ℚ)

/-- The chunk-count calculation of `main` (lines 255-259):
`if args.chunk_duration:` is a Python truthiness test, so `0.0` behaves
like an absent option; otherwise `num_chunks = max(1, int(duration /
chunk_duration))`. -/
def computeNumChunks (duration : ℚ) (chunk_duration : Option ℚ)
    (chunks : ℤ) : ℤ :=
  match chunk_duration with
  | some cd => if cd = 0 then chunks else max 1 (pyInt (duration / cd))
  | none => chunks

/-- Outcome of a generator run: exit code 1 paths (missing config file,
the unhandled `ZeroDivisionError` from `duration / num_chunks` or from
the metadata division, missing API key) or a successful exit carrying
the session directory. -/
inductive ExitResult where
  | success (sessionDir : String)
  | configMissing
  | zeroDivision
  | missingApiKey
deriving DecidableEq

/-- Whether a generator run exited successfully (exit code 0). -/
def ExitResult.isSuccess : ExitResult → Bool
  | .success _ => true
  | _ => false

/-- `main` of `generate_text.py` (lines 200-329): load the config (exit
if missing), resolve wpm and style with Python `or` semantics, compute
the chunk plan (the division `args.duration / num_chunks` raises when
`num_chunks` is zero), check the API key (exit if unset or empty),
generate every chunk via the oracle, and persist the session.  The
returned file system reflects exactly the writes performed. -/
def genMain (config : Option Config) (env : Option String) (args : Args)
    (oracle : String → String) (fs : FS) (timestamp generated_at : String) :
    ExitResult × FS :=
  match config with
  | none => (.configMissing, fs)
  | some cfg =>
    let wpm := pyOrInt args.wpm (cfg.wpm.getD 150)
    let style := pyOrStr args.style (cfg.default_style.getD "conversational")
    let numChunks := computeNumChunks args.duration args.chunk_duration
      args.chunks
    if numChunks = 0 then (.zeroDivision, fs)
    else
      let chunkDuration := chunkDurationOf args.duration numChunks
      match env with
      | none => (.missingApiKey, fs)
      | some key =>
        if key = "" then (.missingApiKey, fs)
        else
          let texts := generateTexts oracle numChunks.toNat chunkDuration
            wpm style args.topic
          let output_dir := cfg.output_directory.getD "output"
          let r := save_output fs output_dir timestamp texts style
            args.duration wpm generated_at
          match r.2 with
          | .ok sd => (.success sd, r.1)
          | .error _ => (.zeroDivision, r.1)

/-- Outcome of an analyzer run: the exit-1 paths of
`calculate_wpm.py` `main` (missing API key, missing input directory, no
MP3 files) or success. -/
inductive AnaResult where
  | success
  | missingApiKey
  | dirMissing
  | noFiles
deriving DecidableEq

/-- `main` of `calculate_wpm.py` (lines 83-168): check the API key,
check the input directory, check that MP3 files exist, build the report
over every file, create `user-context` and write `wpm-analysis.json`. -/
def anaMain (env : Option String) (dirExists : Bool)
    (files : List AudioFile) (fs : FS) (now : String) : AnaResult × FS :=
  match env with
  | none => (.missingApiKey, fs)
  | some key =>
    if key = "" then (.missingApiKey, fs)
    else if !dirExists then (.dirMissing, fs)
    else
      match files with
      | [] => (.noFiles, fs)
      | _ =>
        let report := buildReport now files
        let fs1 := fs.mkdirP "user-context"
        (.success, fs1.write "user-context/wpm-analysis.json" (.report report))

/-- Concrete analyzer input used for closed instances: two files of 60
and 30 seconds with two-word transcripts. -/
def demoFiles : List AudioFile := [⟨"a.mp3", 60, "a b"⟩, ⟨"b.mp3", 30, "c d"⟩]

/-- A fixed generation oracle for closed instances. -/
def wOracle : String → String := fun _ => "hello world"

/-- Concrete chunk list used for closed instances of the persister. -/
def demoTexts : List TextData := [⟨"alpha beta", 5, 2⟩, ⟨"gamma", 5, 1⟩]

/-- A file system in which the session directory of timestamp
`20250101_120000` already exists and already holds a `script.txt`. -/
def fsC1 : FS :=
  ⟨["output/session_20250101_120000"],
   [("output/session_20250101_120000/script.txt", .text "old contents")]⟩

/-- A single freshly generated chunk to be saved into `fsC1`. -/
def tC1 : TextData := ⟨"new contents", 10, 2⟩

lemma append_ne_append_of_length_ne (s a b : String)
    (h : a.length ≠ b.length) : s ++ a ≠ s ++ b := by
  intro he
  apply h
  have hl := congrArg String.length he
  simp only [String.length_append] at hl
  omega

lemma lookupFile_write_eq (fs : FS) (p : String) (e : Entry) :
    lookupFile (fs.write p e) p = some e := by
  simp [lookupFile, FS.write]

lemma lookupFile_write_ne (fs : FS) (p q : String) (e : Entry)
    (h : p ≠ q) : lookupFile (fs.write p e) q = lookupFile fs q := by
  simp only [lookupFile, FS.write]
  rw [List.find?_cons_of_neg]
  simpa using h

lemma writeChunks_files (sd : String) (n : ℕ) (ts : List TextData) :
    ∀ (fs : FS) (i : ℕ),
      (writeChunks sd n fs i ts).files =
        ((List.enumFrom i ts).map (fun p =>
          (sd ++ "/" ++ outFileName n p.1, Entry.text p.2.text))).reverse
          ++ fs.files := by
  induction ts with
  | nil => intro fs i; simp [writeChunks]
  | cons t ts ih =>
    intro fs i
    simp only [writeChunks, ih, FS.write, List.enumFrom_cons, List.map_cons,
      List.reverse_cons, List.append_assoc, List.cons_append, List.nil_append]

lemma max_one_pyInt (q : ℚ) : max 1 (pyInt q) = max 1 ⌊q⌋ := by
  rcases le_or_lt 0 q with hq | hq
  · simp [pyInt, hq]
  · have hc : ⌈q⌉ ≤ 0 := Int.ceil_le.mpr (by exact_mod_cast hq.le)
    have hf : ⌊q⌋ ≤ 0 := Int.floor_nonpos hq.le
    rw [pyInt, if_neg (not_le.mpr hq), max_eq_left (by omega),
      max_eq_left (by omega)]

/-- C3: for a non-negative word count `W` and duration `D` seconds, the
analyzer WPM computation returns `W / (D / 60)` when `D > 0` and `0`
when `D = 0`. -/
theorem claim_C3 (w : ℕ) (d : ℚ) :
    (0 < d → calculate_wpm w d = (w : ℚ) / (d / 60)) ∧
    (d = 0 → calculate_wpm w d = 0) := by
  constructor
  · intro hd
    have h60 : d / 60 ≠ 0 := by positivity
    simp [calculate_wpm, h60]
  · intro hd
    simp [calculate_wpm, hd]

/-- Witness for C3 at `W = 150`, `D = 60`. -/
theorem claim_C3_witness : calculate_wpm 150 60 = (150 : ℚ) / (60 / 60) :=
  (claim_C3 150 60).1 (by norm_num)

/-- C4: when a nonzero chunk duration is supplied, the number of chunks
is `max 1 ⌊T / chunk_duration⌋`. -/
theorem claim_C4 (T cd : ℚ) (ch : ℤ) (h : cd ≠ 0) :
    computeNumChunks T (some cd) ch = max 1 ⌊T / cd⌋ := by
  simp only [computeNumChunks, if_neg h]
  exact max_one_pyInt _

/-- Witness for C4 at `T = 10`, `chunk_duration = 3` (the spec example:
three chunks). -/
theorem claim_C4_witness :
    computeNumChunks 10 (some 3) 7 = max 1 ⌊(10 : ℚ) / 3⌋ :=
  claim_C4 10 3 7 (by norm_num)

/-- C7: every style keyword outside the recognized table resolves to the
same prompt fragment as `"conversational"`. -/
theorem claim_C7 (s : String) (h : s ∉ knownStyles) :
    get_style_prompt s = get_style_prompt "conversational" := by
  simp only [knownStyles, List.mem_cons, List.not_mem_nil, or_false,
    not_or] at h
  obtain ⟨h1, h2, h3, h4, h5, h6, h7⟩ := h
  simp [get_style_prompt, h1, h2, h3, h4, h5, h6, h7]

/-- Witness for C7 at the unknown keyword `"banana"`. -/
theorem claim_C7_witness :
    get_style_prompt "banana" = get_style_prompt "conversational" :=
  claim_C7 "banana" (by decide)

/-- C9: an invocation with `--chunks 0` and no `--chunk-duration`
reaches the unguarded division `args.duration / num_chunks` (modelled as
the `zeroDivision` outcome) before the API key check, before any remote
call (the oracle is arbitrary and unused) and before any file write (the
file system is returned unchanged). -/
theorem claim_C9 (d : ℚ) (st : Option String) (t : String) (w : Option ℤ)
    (cfg : Config) (env : Option String) (oracle : String → String)
    (fs : FS) (ts ga : String) :
    genMain (some cfg) env ⟨d, st, 0, none, t, w⟩ oracle fs ts ga =
      (.zeroDivision, fs) := by
  simp [genMain, computeNumChunks]

/-- C10: a supplied `--chunk-duration 0.0` is falsy in the truthiness
test of line 256, so the planner computes the same chunk count as when
the option is absent (the `--chunks` value), and the whole run behaves
identically. -/
theorem claim_C10 (d : ℚ) (st : Option String) (ch : ℤ) (t : String)
    (w : Option ℤ) (config : Option Config) (env : Option String)
    (oracle : String → String) (fs : FS) (ts ga : String) :
    computeNumChunks d (some 0) ch = computeNumChunks d none ch ∧
    computeNumChunks d none ch = ch ∧
    genMain config env ⟨d, st, ch, some 0, t, w⟩ oracle fs ts ga =
      genMain config env ⟨d, st, ch, none, t, w⟩ oracle fs ts ga := by
  have h : computeNumChunks d (some 0) ch = computeNumChunks d none ch := by
    simp [computeNumChunks]
  refine ⟨h, rfl, ?_⟩
  cases config with
  | none => rfl
  | some cfg => simp only [genMain, h]

/-- C8: with `GEMINI_API_KEY` unset, the analyzer exits at the key check
with the file system untouched, and the generator never reaches a
successful exit and never writes a file, whatever its other inputs. -/
theorem claim_C8 (dirE : Bool) (afiles : List AudioFile) (fsA : FS)
    (now : String) (config : Option Config) (args : Args)
    (oracle : String → String) (fsG : FS) (ts ga : String) :
    anaMain none dirE afiles fsA now = (.missingApiKey, fsA) ∧
    (genMain config none args oracle fsG ts ga).2 = fsG ∧
    ((genMain config none args oracle fsG ts ga).1).isSuccess = false := by
  refine ⟨rfl, ?_⟩
  cases config with
  | none => exact ⟨rfl, rfl⟩
  | some cfg =>
    simp only [genMain]
    split
    · exact ⟨rfl, rfl⟩
    · exact ⟨rfl, rfl⟩

/-- C5: for a plan with duration `T`, chunk count `C ≥ 1` and rate
`wpm ≥ 0`, the per-chunk duration is the equal division `T / C`, and
every generated chunk carries target word count `⌊(T / C) * wpm⌋`. -/
theorem claim_C5 (T : ℚ) (C wpm : ℤ) (oracle : String → String)
    (style topic : String) (hC : 1 ≤ C) (hT : 0 ≤ T) (hw : 0 ≤ wpm) :
    chunkDurationOf T C = T / (C : ℚ) ∧
    (generateTexts oracle C.toNat (chunkDurationOf T C) wpm style
      topic).map TextData.target_words =
      List.replicate C.toNat ⌊(T / (C : ℚ)) * ((wpm : ℤ) : ℚ)⌋ := by
  refine ⟨rfl, ?_⟩
  have hCq : (0 : ℚ) ≤ (C : ℚ) := by exact_mod_cast le_trans zero_le_one hC
  have hprod : (0 : ℚ) ≤ (T / (C : ℚ)) * ((wpm : ℤ) : ℚ) := by
    apply mul_nonneg (div_nonneg hT hCq)
    exact_mod_cast hw
  have htgt : calculate_word_count (chunkDurationOf T C) wpm =
      ⌊(T / (C : ℚ)) * ((wpm : ℤ) : ℚ)⌋ := by
    rw [calculate_word_count, chunkDurationOf, pyInt, if_pos hprod]
  simp only [generateTexts, List.map_map]
  simp only [Function.comp_def, htgt]
  simp [List.map_const', List.length_range]

/-- Witness for C5 at `T = 10`, `C = 4`, `wpm = 150`. -/
theorem claim_C5_witness :
    chunkDurationOf 10 4 = (10 : ℚ) / ((4 : ℤ) : ℚ) ∧
    (generateTexts wOracle (4 : ℤ).toNat (chunkDurationOf 10 4) 150
      "conversational" "").map TextData.target_words =
      List.replicate (4 : ℤ).toNat
        ⌊((10 : ℚ) / ((4 : ℤ) : ℚ)) * (((150 : ℤ) : ℤ) : ℚ)⌋ :=
  claim_C5 10 4 150 wOracle "conversational" "" (by norm_num) (by norm_num)
    (by norm_num)

/-- C2: for a non-empty input, the `average_wpm` of the report equals
the plain (unweighted) arithmetic mean of the per-file `wpm` values of
the report, rounded to one decimal place; and on the concrete
`demoFiles` input the result differs from the duration-weighted mean
`total_words / (total_duration / 60)` rounded the same way. -/
theorem claim_C2 :
    (∀ (now : String) (files : List AudioFile), files ≠ [] →
      (buildReport now files).summary.average_wpm =
        pyRound ((((buildReport now files).files.map FileRecord.wpm).sum) /
          (((buildReport now files).files.length : ℚ))) 1) ∧
    (buildReport "" demoFiles).summary.average_wpm ≠
      pyRound (((buildReport "" demoFiles).summary.total_words : ℚ) /
        ((buildReport "" demoFiles).summary.total_duration_seconds / 60))
        1 := by
  constructor
  · intro now files _
    rfl
  · have h1 : countWords "a b" = 2 := by decide
    have h2 : countWords "c d" = 2 := by decide
    simp only [demoFiles, buildReport, buildFileRecord, List.map_cons,
      List.map_nil, h1, h2, List.sum_cons, List.sum_nil, List.length_cons,
      List.length_nil, calculate_wpm]
    norm_num [pyRound, roundHalfEven]

/-- Witness for C2 at the two-file input `demoFiles`. -/
theorem claim_C2_witness :
    (buildReport "" demoFiles).summary.average_wpm =
      pyRound ((((buildReport "" demoFiles).files.map FileRecord.wpm).sum) /
        (((buildReport "" demoFiles).files.length : ℚ))) 1 :=
  claim_C2.1 "" demoFiles (by simp [demoFiles])

/-- C6: the persister returns the session path and writes exactly, in
this order, one file per chunk — named `script.txt` when there is one
chunk and `chunk_01.txt`, `chunk_02.txt`, … (two-digit zero-padded,
1-indexed, in ordinal order) when there are several — followed by
`metadata.json`, on top of the pre-existing files. -/
theorem claim_C6 (fs : FS) (od ts : String) (texts : List TextData)
    (style : String) (dur : ℚ) (wpm : ℤ) (ga : String)
    (hne : texts ≠ []) (hw : wpm ≠ 0) :
    (save_output fs od ts texts style dur wpm ga).2 =
      Except.ok (sessionPath od ts) ∧
    ((save_output fs od ts texts style dur wpm ga).1).files =
      (sessionPath od ts ++ "/metadata.json",
        Entry.meta (buildMetadata ga texts style dur wpm)) ::
        ((List.enumFrom 1 texts).map (fun p =>
          (sessionPath od ts ++ "/" ++
            (if texts.length = 1 then "script.txt"
             else "chunk_" ++ pad2 p.1 ++ ".txt"),
           Entry.text p.2.text))).reverse ++ fs.files := by
  simp only [save_output, if_neg hw]
  refine ⟨trivial, ?_⟩
  simp only [FS.write, writeChunks_files, FS.mkdirP, outFileName,
    chunkFileName]
  rfl

/-- Witness for C6 at a two-chunk save into an empty file system. -/
theorem claim_C6_witness :
    (save_output ⟨[], []⟩ "output" "20250101_120000" demoTexts
      "conversational" 10 150 "t0").2 =
      Except.ok (sessionPath "output" "20250101_120000") :=
  (claim_C6 ⟨[], []⟩ "output" "20250101_120000" demoTexts "conversational"
    10 150 "t0" (by simp [demoTexts]) (by norm_num)).1

/-- C1 (amended): when the session directory already exists,
`save_output` still succeeds — the directory is created with
`exist_ok=True` — and a colliding `script.txt` is silently replaced by
the new chunk text. -/
theorem claim_C1 (fs : FS) (od ts : String) (t : TextData)
    (style : String) (dur : ℚ) (wpm : ℤ) (ga : String)
    (hdir : FS.hasDir fs (sessionPath od ts) = true) (hw : wpm ≠ 0) :
    (save_output fs od ts [t] style dur wpm ga).2 =
      Except.ok (sessionPath od ts) ∧
    lookupFile (save_output fs od ts [t] style dur wpm ga).1
      (sessionPath od ts ++ "/script.txt") = some (.text t.text) := by
  have hne : sessionPath od ts ++ "/metadata.json" ≠
      sessionPath od ts ++ "/script.txt" :=
    append_ne_append_of_length_ne _ _ _ (by decide)
  simp only [save_output, if_neg hw]
  refine ⟨trivial, ?_⟩
  have hpath : sessionPath od ts ++ "/" ++ "script.txt" =
      sessionPath od ts ++ "/script.txt" := by
    rw [String.append_assoc]
    congr 1
  have hsingle : writeChunks (sessionPath od ts) 1 ((fs.mkdirP
      (sessionPath od ts))) 1 [t] =
      (fs.mkdirP (sessionPath od ts)).write
        (sessionPath od ts ++ "/script.txt") (.text t.text) := by
    simp [writeChunks, outFileName, hpath]
  simp only [List.length_singleton, hsingle]
  rw [lookupFile_write_ne _ _ _ _ hne, lookupFile_write_eq]

/-- Witness for C1 (amended) at the pre-populated file system `fsC1`. -/
theorem claim_C1_witness :
    (save_output fsC1 "output" "20250101_120000" [tC1] "conversational"
      1 150 "t0").2 = Except.ok (sessionPath "output" "20250101_120000") ∧
    lookupFile (save_output fsC1 "output" "20250101_120000" [tC1]
      "conversational" 1 150 "t0").1
      (sessionPath "output" "20250101_120000" ++ "/script.txt") =
      some (.text tC1.text) :=
  claim_C1 fsC1 "output" "20250101_120000" tC1 "conversational" 1 150 "t0"
    (by decide) (by norm_num)

/-- Counterexample to C1 as stated: with the session directory already
present and holding an older `script.txt`, a run of the persister
silently replaces its contents. -/
theorem claim_C1_counterexample :
    FS.hasDir fsC1 (sessionPath "output" "20250101_120000") = true ∧
    lookupFile fsC1
      (sessionPath "output" "20250101_120000" ++ "/script.txt") =
      some (.text "old contents") ∧
    lookupFile (save_output fsC1 "output" "20250101_120000" [tC1]
      "conversational" 1 150 "t0").1
      (sessionPath "output" "20250101_120000" ++ "/script.txt") =
      some (.text "new contents") := by
  refine ⟨by decide, by decide, ?_⟩
  decide
